import Mathlib

/-!
Shallow embedding of the wplacer-autologin turnstile solver core
(src/api_server.py) and of the persistent-state writer
(src/autologin.py, save_state), with theorems settling the spec claims.

Time is modelled in whole seconds as Nat; Python ints are modelled as Int
where the code can decrement them; the result registry (a Python dict) is
modelled as an association list with replace-on-insert and
remove-all-on-pop semantics.
-/

/-- Mirror of the `TurnstileResult` dataclass (src/api_server.py:50-56). -/
structure TurnstileResult where
  status : String
  startTime : Nat
  elapsedTime : Option Nat
  value : Option String
  message : Option String
deriving Repr, DecidableEq

/-- `rs[id]` lookup in the results dict. -/
def lookupResult (rs : List (String × TurnstileResult)) (id : String) :
    Option TurnstileResult :=
  match rs with
  | [] => none
  | (k, v) :: rest => if k = id then some v else lookupResult rest id

/-- `rs.pop(id)`: removal of the entry for `id`. -/
def eraseResult (rs : List (String × TurnstileResult)) (id : String) :
    List (String × TurnstileResult) :=
  match rs with
  | [] => []
  | (k, v) :: rest =>
      if k = id then eraseResult rest id else (k, v) :: eraseResult rest id

/-- `rs[id] = r`: insertion (overwriting any previous binding). -/
def insertResult (rs : List (String × TurnstileResult)) (id : String)
    (r : TurnstileResult) : List (String × TurnstileResult) :=
  (id, r) :: eraseResult rs id

/-- The mutable state of `TurnstileAPIServer` that the claims concern:
the results dict, the in-flight counter, the configured maximum
(`thread * page_count`, src/api_server.py:301), and the page pool.
`poolAvail` is the number of pages sitting in `page_pool`; `checkedOut`
is the (ghost) number of pages currently held by solve workers. -/
structure ServerState where
  results : List (String × TurnstileResult)
  currentTaskNum : Int
  maxTaskNum : Nat
  poolAvail : Nat
  checkedOut : Nat
deriving Repr, DecidableEq

/-- Server state right after `__init__` and `_initialize_browser`:
empty registry, zero in-flight tasks, `thread * page_count` pages pooled. -/
def initServer (thread pageCount : Nat) : ServerState :=
  { results := []
    currentTaskNum := 0
    maxTaskNum := thread * pageCount
    poolAvail := thread * pageCount
    checkedOut := 0 }

/-- Outcome of `process_turnstile` (src/api_server.py:744-789):
HTTP 400, HTTP 429, or HTTP 202 carrying the fresh task id. -/
inductive TurnstileResponse where
  | badRequest
  | atCapacity
  | accepted (taskId : String)
deriving Repr, DecidableEq

/-- The record stored at admission (src/api_server.py:769-772). -/
def pendingRecord (now : Nat) : TurnstileResult :=
  { status := "process"
    startTime := now
    elapsedTime := none
    value := none
    message := some "solving captcha" }

/-- Python `not s.strip()`: true when `s` is empty or whitespace-only. -/
def stripsToEmpty (s : String) : Bool :=
  s.data.all Char.isWhitespace

/-- `TurnstileAPIServer.process_turnstile` (src/api_server.py:744-789).
`freshId` stands for the generated uuid4. Validation (`url.strip()`,
`sitekey.strip()`) precedes the capacity check; on admission the pending
record is stored, the solver task is spawned, and the in-flight counter
is incremented. -/
def process_turnstile (st : ServerState) (freshId url sitekey : String)
    (now : Nat) : TurnstileResponse × ServerState :=
  if stripsToEmpty url || stripsToEmpty sitekey then
    (.badRequest, st)
  else if (st.maxTaskNum : Int) ≤ st.currentTaskNum then
    (.atCapacity, st)
  else
    (.accepted freshId,
     { st with
        results := insertResult st.results freshId (pendingRecord now)
        currentTaskNum := st.currentTaskNum + 1 })

/-- Outcome of `get_result` (src/api_server.py:791-848): HTTP 400,
HTTP 404, HTTP 202 with the elapsed time, or a terminal response carrying
the HTTP status code and the popped record. -/
inductive ResultResponse where
  | badRequest
  | notFound
  | processing (elapsed : Nat)
  | final (httpStatus : Nat) (r : TurnstileResult)
deriving Repr, DecidableEq

/-- Python `str(value)` for an `Optional[str]`. -/
def strOfValue : Option String → String
  | none => "None"
  | some s => s

/-- Python `"captcha_fail" in str(value)` (substring test,
src/api_server.py:833). -/
def containsCaptchaFail (v : Option String) : Bool :=
  1 < ((strOfValue v).splitOn "captcha_fail").length

/-- HTTP status chosen for a terminal record (src/api_server.py:828-836). -/
def statusCodeFor (r : TurnstileResult) : Nat :=
  if r.status = "success" then 200
  else if r.value = some "timeout" then 408
  else if containsCaptchaFail r.value then 422
  else 500

/-- `TurnstileAPIServer.get_result` (src/api_server.py:791-848). A record
still in the "process" state is converted to the timeout error when polled
more than 300 seconds after creation; every terminal record is popped from
the registry as it is returned. -/
def get_result (st : ServerState) (taskId : String) (now : Nat) :
    ResultResponse × ServerState :=
  if stripsToEmpty taskId then
    (.badRequest, st)
  else
    match lookupResult st.results taskId with
    | none => (.notFound, st)
    | some r =>
      if r.status = "process" then
        if 300 < now - r.startTime then
          let r2 : TurnstileResult :=
            { r with
                status := "error"
                elapsedTime := some (now - r.startTime)
                value := some "timeout"
                message := some "Task timeout after 5 minutes" }
          (.final (statusCodeFor r2) r2,
           { st with results := eraseResult st.results taskId })
        else
          (.processing (now - r.startTime), st)
      else
        (.final (statusCodeFor r) r,
         { st with results := eraseResult st.results taskId })

lemma lookup_insert_self (rs : List (String × TurnstileResult))
    (id : String) (r : TurnstileResult) :
    lookupResult (insertResult rs id r) id = some r := by
  simp [insertResult, lookupResult]

lemma lookup_erase_self (rs : List (String × TurnstileResult))
    (id : String) :
    lookupResult (eraseResult rs id) id = none := by
  induction rs with
  | nil => simp [eraseResult, lookupResult]
  | cons p rest ih =>
      by_cases h : p.1 = id
      · simpa [eraseResult, h] using ih
      · simpa [eraseResult, lookupResult, h] using ih

/-- Observable events of one run of `_solve_turnstile`
(src/api_server.py:508-604), in program order: acquiring a page from the
pool, storing a result record, decrementing the in-flight counter, and
putting the page back. -/
inductive SolveEvent where
  | poolGet
  | recordSet (r : TurnstileResult)
  | decrement
  | poolPut
deriving Repr, DecidableEq

/-- Environment of one `_solve_turnstile` run. `acquireOk` is whether a
pooled page became available within the 30 second wait; `bodyRaises` is
whether the outer try body (routing, navigation, element resize, or an
escape from the polling loop) raised; `obs i` is the outcome of the
`input_value` read on attempt `i` (`none` when the read or the click
raised, `some s` when it returned the string `s`); `errMsg` is the text
of the raised exception when `bodyRaises` holds. -/
structure SolveEnv where
  acquireOk : Bool
  bodyRaises : Bool
  obs : Nat → Option String
  errMsg : String

/-- Outcome of the bounded polling loop (src/api_server.py:550-576). -/
inductive PollOutcome where
  | success (attemptIdx : Nat) (token : String)
  | timeout
deriving Repr, DecidableEq

/-- The polling loop: attempt `i` with `fuel` attempts remaining. An
empty or failed read moves on to the next attempt; the first non-empty
read succeeds with that token. -/
def pollFrom (obs : Nat → Option String) : Nat → Nat → PollOutcome
  | _, 0 => .timeout
  | i, fuel + 1 =>
      match obs i with
      | some s => if s = "" then pollFrom obs (i + 1) fuel else .success i s
      | none => pollFrom obs (i + 1) fuel

/-- Per-attempt actions of the polling loop: the `input_value` read, the
corrective click on the widget, and the 0.5 second wait. -/
inductive PollEvent where
  | readField
  | clickWidget
  | wait
deriving Repr, DecidableEq

/-- Action trace of the polling loop. An attempt whose read returns the
empty string performs read, click, wait (src/api_server.py:558-561); a
raising attempt performs read then the wait of the handler
(src/api_server.py:574-576); the first attempt returning a non-empty
token performs only the read and stops the loop. -/
def pollTrace (obs : Nat → Option String) : Nat → Nat → List PollEvent
  | _, 0 => []
  | i, fuel + 1 =>
      match obs i with
      | some s =>
          if s = "" then
            .readField :: .clickWidget :: .wait :: pollTrace obs (i + 1) fuel
          else [.readField]
      | none => .readField :: .wait :: pollTrace obs (i + 1) fuel

/-- `max_attempts = 60` (src/api_server.py:550). -/
def max_attempts : Nat := 60

def runPoll (obs : Nat → Option String) : PollOutcome :=
  pollFrom obs 0 max_attempts

def runPollTrace (obs : Nat → Option String) : List PollEvent :=
  pollTrace obs 0 max_attempts

/-- Record written on a successful solve (src/api_server.py:565-570). -/
def successRecord (startTime elapsed : Nat) (token : String) :
    TurnstileResult :=
  { status := "success"
    startTime := startTime
    elapsedTime := some elapsed
    value := some token
    message := none }

/-- Record written when all polling attempts are exhausted
(src/api_server.py:580-586). -/
def timeoutRecord (startTime elapsed : Nat) : TurnstileResult :=
  { status := "error"
    startTime := startTime
    elapsedTime := some elapsed
    value := some "timeout"
    message := some "Captcha solve timeout" }

/-- Record written when the outer try body raised
(src/api_server.py:591-597). -/
def captchaFailRecord (startTime elapsed : Nat) (msg : String) :
    TurnstileResult :=
  { status := "error"
    startTime := startTime
    elapsedTime := some elapsed
    value := some "captcha_fail"
    message := some msg }

/-- Record written when no page became available within 30 seconds
(src/api_server.py:517-523). -/
def noPageRecord (startTime elapsed : Nat) : TurnstileResult :=
  { status := "error"
    startTime := startTime
    elapsedTime := some elapsed
    value := some "no_page_available"
    message := some "No page available within timeout" }

/-- `TurnstileAPIServer._solve_turnstile` (src/api_server.py:508-604),
returning the event trace and the resulting server state. When the
acquire times out, the error record is stored and the counter decremented
and the pool is untouched; otherwise a page is taken, the terminal record
(success, timeout, or captcha_fail) is stored in the try/except body, and
the finally block decrements the counter and puts the page back. -/
def solve_turnstile (env : SolveEnv) (taskId : String)
    (startTime endTime : Nat) (st : ServerState) :
    List SolveEvent × ServerState :=
  if env.acquireOk then
    let r : TurnstileResult :=
      if env.bodyRaises then
        captchaFailRecord startTime (endTime - startTime) env.errMsg
      else
        match runPoll env.obs with
        | .success _ token => successRecord startTime (endTime - startTime) token
        | .timeout => timeoutRecord startTime (endTime - startTime)
    ([.poolGet, .recordSet r, .decrement, .poolPut],
     { st with
        results := insertResult st.results taskId r
        currentTaskNum := st.currentTaskNum - 1
        poolAvail := st.poolAvail - 1 + 1
        checkedOut := st.checkedOut + 1 - 1 })
  else
    let r := noPageRecord startTime (endTime - startTime)
    ([.recordSet r, .decrement],
     { st with
        results := insertResult st.results taskId r
        currentTaskNum := st.currentTaskNum - 1 })

/-- Page-pool accounting: pages available in the queue and pages checked
out to workers. -/
structure PoolState where
  avail : Nat
  checkedOut : Nat
deriving Repr, DecidableEq

/-- One pool action of a solve worker: `page_pool.get()`
(src/api_server.py:514), only possible when a page is present, or
`page_pool.put(...)` (src/api_server.py:602), only possible for a worker
holding a page. -/
inductive PoolStep : PoolState → PoolState → Prop
  | acquire (s : PoolState) (h : 0 < s.avail) :
      PoolStep s ⟨s.avail - 1, s.checkedOut + 1⟩
  | release (s : PoolState) (h : 0 < s.checkedOut) :
      PoolStep s ⟨s.avail + 1, s.checkedOut - 1⟩

/-- Pool states reachable by some interleaving of worker acquire/release
actions from an initial state. -/
inductive PoolReachable (init : PoolState) : PoolState → Prop
  | refl : PoolReachable init init
  | step {s t : PoolState} :
      PoolReachable init s → PoolStep s t → PoolReachable init t

/-- One cycle of `_periodic_cleanup` (src/api_server.py:406-446).
Pages are modelled by Nat identifiers; the `k`-th drained page is closed
(close failures are caught and do not stop the loop) and a fresh page
with identifier `nextId + k` is created and put back when `createOk k`
holds; a failing creation is logged and nothing is put back for that
page. Returns the list of closed pages and the repopulated pool. -/
def recreateLoop (createOk : Nat → Bool) (nextId : Nat) :
    Nat → List Nat → List Nat
  | _, [] => []
  | k, _ :: rest =>
      (if createOk k then [nextId + k] else []) ++
        recreateLoop createOk nextId (k + 1) rest

def periodic_cleanup_cycle (createOk : Nat → Bool) (pool : List Nat)
    (nextId : Nat) : List Nat × List Nat :=
  (pool, recreateLoop createOk nextId 0 pool)

/-- Filesystem slice touched by `save_state` (src/autologin.py:1231-1246):
the contents at the state-file path, at its `.backup` path, and at its
`.tmp` path. -/
structure FsState where
  stateFile : Option String
  backupFile : Option String
  tmpFile : Option String
deriving Repr, DecidableEq

/-- Filesystem operations `save_state` performs, in program order. -/
inductive FsOp where
  | renameStateToBackup
  | writeTmp (content : String)
  | replaceTmpToState
deriving Repr, DecidableEq

/-- `save_state` (src/autologin.py:1231-1246): when the state file exists
it is first renamed onto the backup path (overwriting any older backup);
the serialized new state is then written to the `.tmp` path and moved
onto the state-file path with the atomic `os.replace`. `content` stands
for the JSON serialization of the state being saved. -/
def save_state (content : String) (fs : FsState) : List FsOp × FsState :=
  let backedUp :=
    match fs.stateFile with
    | some old =>
        ([FsOp.renameStateToBackup],
         { fs with stateFile := none, backupFile := some old })
    | none => (([] : List FsOp), fs)
  let fs1 := backedUp.2
  let fs2 := { fs1 with tmpFile := some content }
  let fs3 := { fs2 with stateFile := fs2.tmpFile, tmpFile := none }
  (backedUp.1 ++ [FsOp.writeTmp content, FsOp.replaceTmpToState], fs3)

def isReadField : PollEvent → Bool
  | .readField => true
  | _ => false

/-- Number of `input_value` read attempts in a poll trace. -/
def countReads (tr : List PollEvent) : Nat :=
  (tr.filter isReadField).length

/-- Every corrective click is immediately followed by a wait. -/
def clicksFollowedByWait : List PollEvent → Bool
  | [] => true
  | .clickWidget :: rest =>
      (match rest with
       | .wait :: _ => true
       | _ => false) && clicksFollowedByWait rest
  | _ :: rest => clicksFollowedByWait rest

lemma pollFrom_success (obs : Nat → Option String) :
    ∀ fuel k i s, k < fuel → obs (i + k) = some s → s ≠ "" →
      (∀ j, j < k → obs (i + j) = none ∨ obs (i + j) = some "") →
      pollFrom obs i fuel = .success (i + k) s := by
  intro fuel
  induction fuel with
  | zero => intro k i s hk; omega
  | succ fuel ih =>
      intro k i s hk hs hne hb
      cases k with
      | zero =>
          simp only [Nat.add_zero] at hs
          simp [pollFrom, hs, hne]
      | succ m =>
          have h0 := hb 0 (Nat.succ_pos m)
          have step : pollFrom obs i (fuel + 1) = pollFrom obs (i + 1) fuel := by
            rcases h0 with h0 | h0 <;> simp [pollFrom, Nat.add_zero] at h0 ⊢ <;>
              simp [h0]
          rw [step]
          have hs2 : obs (i + 1 + m) = some s := by
            have : i + 1 + m = i + (m + 1) := by omega
            rw [this]; exact hs
          have hb2 : ∀ j, j < m → obs (i + 1 + j) = none ∨ obs (i + 1 + j) = some "" := by
            intro j hj
            have : i + 1 + j = i + (j + 1) := by omega
            rw [this]
            exact hb (j + 1) (by omega)
          have := ih m (i + 1) s (by omega) hs2 hne hb2
          rw [this]
          have : i + 1 + m = i + (m + 1) := by omega
          rw [this]

lemma pollFrom_timeout (obs : Nat → Option String) :
    ∀ fuel i, (∀ j, j < fuel → obs (i + j) = none ∨ obs (i + j) = some "") →
      pollFrom obs i fuel = .timeout := by
  intro fuel
  induction fuel with
  | zero => intro i _; simp [pollFrom]
  | succ fuel ih =>
      intro i hb
      have h0 := hb 0 (Nat.succ_pos fuel)
      have step : pollFrom obs i (fuel + 1) = pollFrom obs (i + 1) fuel := by
        rcases h0 with h0 | h0 <;> simp [Nat.add_zero] at h0 <;>
          simp [pollFrom, h0]
      rw [step]
      apply ih
      intro j hj
      have : i + 1 + j = i + (j + 1) := by omega
      rw [this]
      exact hb (j + 1) (by omega)

lemma countReads_pollTrace (obs : Nat → Option String) :
    ∀ fuel i, countReads (pollTrace obs i fuel) ≤ fuel := by
  intro fuel
  induction fuel with
  | zero => intro i; simp [pollTrace, countReads]
  | succ fuel ih =>
      intro i
      cases hob : obs i with
      | none =>
          have := ih (i + 1)
          simp only [pollTrace, hob]
          simp only [countReads, List.filter, isReadField, List.length_cons] at this ⊢
          omega
      | some s =>
          by_cases hs : s = ""
          · subst hs
            have := ih (i + 1)
            simp only [pollTrace, hob, if_pos rfl]
            simp only [countReads, List.filter, isReadField, List.length_cons] at this ⊢
            omega
          · simp only [pollTrace, hob, if_neg hs]
            simp [countReads, List.filter, isReadField]

lemma clicksFollowedByWait_pollTrace (obs : Nat → Option String) :
    ∀ fuel i, clicksFollowedByWait (pollTrace obs i fuel) = true := by
  intro fuel
  induction fuel with
  | zero => intro i; simp [pollTrace, clicksFollowedByWait]
  | succ fuel ih =>
      intro i
      cases hob : obs i with
      | none =>
          simp only [pollTrace, hob]
          simp only [clicksFollowedByWait]
          exact ih (i + 1)
      | some s =>
          by_cases hs : s = ""
          · subst hs
            simp only [pollTrace, hob, if_pos rfl]
            simpa [clicksFollowedByWait] using ih (i + 1)
          · simp [pollTrace, hob, hs, clicksFollowedByWait]

lemma click_mem_pollTrace (obs : Nat → Option String) :
    ∀ fuel k i, k < fuel → obs (i + k) = some "" →
      (∀ j, j < k → obs (i + j) = none ∨ obs (i + j) = some "") →
      PollEvent.clickWidget ∈ pollTrace obs i fuel := by
  intro fuel
  induction fuel with
  | zero => intro k i hk; omega
  | succ fuel ih =>
      intro k i hk hke hb
      cases k with
      | zero =>
          simp only [Nat.add_zero] at hke
          simp [pollTrace, hke]
      | succ m =>
          have h0 := hb 0 (Nat.succ_pos m)
          have hke2 : obs (i + 1 + m) = some "" := by
            have : i + 1 + m = i + (m + 1) := by omega
            rw [this]; exact hke
          have hb2 : ∀ j, j < m → obs (i + 1 + j) = none ∨ obs (i + 1 + j) = some "" := by
            intro j hj
            have : i + 1 + j = i + (j + 1) := by omega
            rw [this]
            exact hb (j + 1) (by omega)
          have htail := ih m (i + 1) (by omega) hke2 hb2
          rcases h0 with h0 | h0 <;> simp [Nat.add_zero] at h0 <;>
            simp [pollTrace, h0, htail]

/-- C1: a submission with non-empty url and sitekey is accepted with a 202
and a fresh task id when the in-flight count is strictly below the
configured maximum (threads times pages-per-thread), incrementing the
count by one and registering the pending record; when the count is at or
above the maximum it is rejected with a 429 and neither the count nor the
registry changes. -/
theorem claim_C1_admission (st : ServerState) (freshId url sitekey : String)
    (now thread pageCount : Nat)
    (hmax : st.maxTaskNum = thread * pageCount)
    (hurl : stripsToEmpty url = false) (hsk : stripsToEmpty sitekey = false)
    (_hfresh : lookupResult st.results freshId = none) :
    (st.currentTaskNum < (st.maxTaskNum : Int) →
      process_turnstile st freshId url sitekey now =
        (.accepted freshId,
         { st with
            results := insertResult st.results freshId (pendingRecord now)
            currentTaskNum := st.currentTaskNum + 1 }) ∧
      lookupResult (process_turnstile st freshId url sitekey now).2.results
          freshId = some (pendingRecord now)) ∧
    ((st.maxTaskNum : Int) ≤ st.currentTaskNum →
      process_turnstile st freshId url sitekey now = (.atCapacity, st)) := by
  have hcond : (stripsToEmpty url || stripsToEmpty sitekey) = false := by
    rw [hurl, hsk]; rfl
  constructor
  · intro hlt
    have hcap : ¬ ((st.maxTaskNum : Int) ≤ st.currentTaskNum) := by omega
    constructor
    · unfold process_turnstile
      rw [hcond]
      simp [if_neg hcap]
    · unfold process_turnstile
      rw [hcond]
      simp [if_neg hcap, lookup_insert_self]
  · intro hge
    unfold process_turnstile
    rw [hcond]
    simp [if_pos hge]

theorem claim_C1_admission_witness :
    process_turnstile (initServer 1 1) "t1" "u" "k" 0 =
      (.accepted "t1",
       { initServer 1 1 with
          results := insertResult (initServer 1 1).results "t1"
            (pendingRecord 0)
          currentTaskNum := (initServer 1 1).currentTaskNum + 1 }) ∧
    process_turnstile { initServer 1 1 with currentTaskNum := 1 }
        "t2" "u" "k" 0 =
      (.atCapacity, { initServer 1 1 with currentTaskNum := 1 }) := by
  constructor
  · exact ((claim_C1_admission (initServer 1 1) "t1" "u" "k" 0 1 1 rfl
      (by decide) (by decide) rfl).1 (by decide)).1
  · exact (claim_C1_admission { initServer 1 1 with currentTaskNum := 1 }
      "t2" "u" "k" 0 1 1 rfl (by decide) (by decide) rfl).2 (by decide)

/-- C10: a submission whose url or sitekey is empty or whitespace-only
fails with a 400 before admission is considered: the state (registry and
in-flight count) is returned unchanged, whatever the capacity. -/
theorem claim_C10_empty_params (st : ServerState)
    (freshId url sitekey : String) (now : Nat)
    (h : (stripsToEmpty url || stripsToEmpty sitekey) = true) :
    process_turnstile st freshId url sitekey now = (.badRequest, st) := by
  unfold process_turnstile
  rw [h]
  rfl

theorem claim_C10_empty_params_witness :
    process_turnstile (initServer 2 3) "t1" "  " "key" 7 =
      (.badRequest, initServer 2 3) :=
  claim_C10_empty_params (initServer 2 3) "t1" "  " "key" 7 (by decide)

/-- C2: the first poll for a task whose record is terminal (status is not
"process") pops the record and returns the terminal payload; a second
poll for the same id, and any poll for an id with no record, returns not
found (404). -/
theorem claim_C2_single_consumer (st : ServerState) (id : String)
    (r : TurnstileResult) (now now2 : Nat)
    (hid : stripsToEmpty id = false)
    (hr : lookupResult st.results id = some r)
    (hterm : r.status ≠ "process") :
    get_result st id now =
      (.final (statusCodeFor r) r,
       { st with results := eraseResult st.results id }) ∧
    (get_result { st with results := eraseResult st.results id } id now2).1
      = .notFound ∧
    (∀ st2 : ServerState, ∀ id2 : String, stripsToEmpty id2 = false →
      lookupResult st2.results id2 = none →
      get_result st2 id2 now2 = (.notFound, st2)) := by
  refine ⟨?_, ?_, ?_⟩
  · unfold get_result
    rw [hid, hr]
    simp [if_neg hterm]
  · unfold get_result
    rw [hid, lookup_erase_self]
    rfl
  · intro st2 id2 hid2 hnone
    unfold get_result
    rw [hid2, hnone]
    rfl

theorem claim_C2_single_consumer_witness :
    get_result ⟨[("a", successRecord 0 1 "tok")], 0, 1, 1, 0⟩ "a" 5 =
      (.final 200 (successRecord 0 1 "tok"), ⟨[], 0, 1, 1, 0⟩) ∧
    (get_result ⟨[], 0, 1, 1, 0⟩ "a" 6).1 = ResultResponse.notFound := by
  have h := claim_C2_single_consumer
    ⟨[("a", successRecord 0 1 "tok")], 0, 1, 1, 0⟩ "a"
    (successRecord 0 1 "tok") 5 6 (by decide) (by decide) (by decide)
  exact ⟨h.1, h.2.1⟩

/-- C6: polling a record still in the "process" state strictly more than
300 seconds after its creation converts it to the timeout error and
consumes it in that same poll (so a later poll finds nothing); polling it
within 300 seconds returns a 202 and leaves the state unchanged. -/
theorem claim_C6_pending_staleness (st : ServerState) (id : String)
    (r : TurnstileResult) (now now2 : Nat)
    (hid : stripsToEmpty id = false)
    (hr : lookupResult st.results id = some r)
    (hp : r.status = "process") :
    (300 < now - r.startTime →
      get_result st id now =
        (.final 408
          { r with
              status := "error"
              elapsedTime := some (now - r.startTime)
              value := some "timeout"
              message := some "Task timeout after 5 minutes" },
         { st with results := eraseResult st.results id }) ∧
      (get_result { st with results := eraseResult st.results id } id
          now2).1 = .notFound) ∧
    (now - r.startTime ≤ 300 →
      get_result st id now = (.processing (now - r.startTime), st)) := by
  constructor
  · intro hold
    constructor
    · unfold get_result
      rw [hid, hr]
      simp only [hp, if_pos rfl, if_pos hold]
      simp [statusCodeFor]
    · unfold get_result
      rw [hid, lookup_erase_self]
      rfl
  · intro hyoung
    have hnot : ¬ (300 < now - r.startTime) := by omega
    unfold get_result
    rw [hid, hr]
    simp [hp, hnot]

theorem claim_C6_pending_staleness_witness :
    get_result ⟨[("b", pendingRecord 0)], 1, 1, 1, 0⟩ "b" 301 =
      (.final 408
        { status := "error", startTime := 0, elapsedTime := some 301,
          value := some "timeout",
          message := some "Task timeout after 5 minutes" },
       ⟨[], 1, 1, 1, 0⟩) ∧
    get_result ⟨[("b", pendingRecord 0)], 1, 1, 1, 0⟩ "b" 300 =
      (.processing 300, ⟨[("b", pendingRecord 0)], 1, 1, 1, 0⟩) := by
  have h := claim_C6_pending_staleness
    ⟨[("b", pendingRecord 0)], 1, 1, 1, 0⟩ "b" (pendingRecord 0) 301 400
    (by decide) (by decide) (by decide)
  have h2 := claim_C6_pending_staleness
    ⟨[("b", pendingRecord 0)], 1, 1, 1, 0⟩ "b" (pendingRecord 0) 300 400
    (by decide) (by decide) (by decide)
  exact ⟨(h.1 (by decide)).1, h2.2 (by decide)⟩

def isDecrement : SolveEvent → Bool
  | .decrement => true
  | _ => false

def isRecordSet : SolveEvent → Bool
  | .recordSet _ => true
  | _ => false

/-- The ordering claimed by the spec for a terminal transition: the
in-flight counter decrement happens before the task-record update. -/
def decrementPrecedesUpdate (tr : List SolveEvent) : Prop :=
  ∀ i j, tr.findIdx? isDecrement = some i →
    tr.findIdx? isRecordSet = some j → i < j

/-- C3 counterexample: in a successful solve run the trace is pool get,
record update, counter decrement, page release — the record update comes
before the decrement, so the claimed order (decrement first, then record
update) is false. -/
theorem claim_C3_order_counterexample :
    ¬ decrementPrecedesUpdate
        (solve_turnstile
          { acquireOk := true, bodyRaises := false,
            obs := fun _ => some "tok", errMsg := "" }
          "t" 0 1 (initServer 1 1)).1 := by
  intro h
  have h2 := h 2 1 (by decide) (by decide)
  omega

/-- C3 (amended): each terminal transition of the solve worker performs,
in this order, the task-record update, then the in-flight counter
decrement, then (when a page was acquired) the release of the page back
to the pool; the release is performed even when an unexpected exception
was raised during rendering or polling, and in the acquire-timeout case
(no page held) only the record update and the decrement happen. -/
theorem claim_C3_order_amended (env : SolveEnv) (taskId : String)
    (startTime endTime : Nat) (st : ServerState) :
    (env.acquireOk = true →
      ∃ r, (solve_turnstile env taskId startTime endTime st).1 =
        [.poolGet, .recordSet r, .decrement, .poolPut]) ∧
    (env.acquireOk = true → env.bodyRaises = true →
      (solve_turnstile env taskId startTime endTime st).1 =
        [.poolGet,
         .recordSet
           (captchaFailRecord startTime (endTime - startTime) env.errMsg),
         .decrement, .poolPut]) ∧
    (env.acquireOk = false →
      (solve_turnstile env taskId startTime endTime st).1 =
        [.recordSet (noPageRecord startTime (endTime - startTime)),
         .decrement]) := by
  refine ⟨?_, ?_, ?_⟩
  · intro hacq
    simp only [solve_turnstile, hacq, if_true]
    exact ⟨_, rfl⟩
  · intro hacq hbody
    simp only [solve_turnstile, hacq, hbody, if_true]
  · intro hacq
    simp only [solve_turnstile, hacq, Bool.false_eq_true, if_false]

theorem claim_C3_order_amended_witness :
    (solve_turnstile
      { acquireOk := true, bodyRaises := true,
        obs := fun _ => none, errMsg := "boom" }
      "t" 0 1 (initServer 1 1)).1 =
    [.poolGet, .recordSet (captchaFailRecord 0 1 "boom"),
     .decrement, .poolPut] :=
  (claim_C3_order_amended
    { acquireOk := true, bodyRaises := true,
      obs := fun _ => none, errMsg := "boom" }
    "t" 0 1 (initServer 1 1)).2.1 rfl rfl

/-- C4: at every point of any interleaving of worker acquire and release
actions starting from a full pool of n pages, available plus checked-out
pages equals n; moreover one whole `_solve_turnstile` run preserves the
sum of available and checked-out pages. -/
theorem claim_C4_pool_invariant (n : Nat) :
    (∀ s, PoolReachable ⟨n, 0⟩ s → s.avail + s.checkedOut = n) ∧
    (∀ (env : SolveEnv) (taskId : String) (t0 t1 : Nat) (st : ServerState),
      (env.acquireOk = true → 0 < st.poolAvail) →
      (solve_turnstile env taskId t0 t1 st).2.poolAvail +
        (solve_turnstile env taskId t0 t1 st).2.checkedOut =
        st.poolAvail + st.checkedOut) := by
  constructor
  · intro s h
    induction h with
    | refl => rfl
    | step hreach hstep ih =>
        cases hstep with
        | acquire ht =>
            simp only at ih ⊢
            omega
        | release ht =>
            simp only at ih ⊢
            omega
  · intro env taskId t0 t1 st hp
    by_cases hacq : env.acquireOk = true
    · have hpos := hp hacq
      simp only [solve_turnstile, hacq, if_true]
      omega
    · rw [Bool.not_eq_true] at hacq
      simp only [solve_turnstile, hacq, Bool.false_eq_true, if_false]

theorem claim_C4_pool_invariant_witness :
    (⟨1, 1⟩ : PoolState).avail + (⟨1, 1⟩ : PoolState).checkedOut = 2 ∧
    (solve_turnstile
      { acquireOk := true, bodyRaises := false,
        obs := fun _ => some "x", errMsg := "" }
      "t" 0 1 (initServer 2 1)).2.poolAvail +
    (solve_turnstile
      { acquireOk := true, bodyRaises := false,
        obs := fun _ => some "x", errMsg := "" }
      "t" 0 1 (initServer 2 1)).2.checkedOut =
    (initServer 2 1).poolAvail + (initServer 2 1).checkedOut := by
  constructor
  · exact (claim_C4_pool_invariant 2).1 ⟨1, 1⟩
      (PoolReachable.step PoolReachable.refl
        (PoolStep.acquire ⟨2, 0⟩ (by decide)))
  · exact (claim_C4_pool_invariant 2).2
      { acquireOk := true, bodyRaises := false,
        obs := fun _ => some "x", errMsg := "" }
      "t" 0 1 (initServer 2 1) (fun _ => by decide)

/-- C7: when no page becomes available within the acquire wait, the
worker stores a terminal error record with value "no_page_available" for
the task, decrements the in-flight counter exactly once, and leaves the
page pool untouched. -/
theorem claim_C7_no_page (env : SolveEnv) (taskId : String)
    (t0 t1 : Nat) (st : ServerState) (h : env.acquireOk = false) :
    (solve_turnstile env taskId t0 t1 st).2.currentTaskNum
        = st.currentTaskNum - 1 ∧
    (solve_turnstile env taskId t0 t1 st).2.poolAvail = st.poolAvail ∧
    (solve_turnstile env taskId t0 t1 st).2.checkedOut = st.checkedOut ∧
    lookupResult (solve_turnstile env taskId t0 t1 st).2.results taskId
        = some (noPageRecord t0 (t1 - t0)) ∧
    (noPageRecord t0 (t1 - t0)).status = "error" ∧
    (noPageRecord t0 (t1 - t0)).value = some "no_page_available" := by
  refine ⟨?_, ?_, ?_, ?_, rfl, rfl⟩ <;>
    simp [solve_turnstile, h, lookup_insert_self]

theorem claim_C7_no_page_witness :
    (solve_turnstile
      { acquireOk := false, bodyRaises := false,
        obs := fun _ => none, errMsg := "" }
      "t" 0 5 (initServer 1 1)).2.currentTaskNum =
      (initServer 1 1).currentTaskNum - 1 ∧
    lookupResult
      (solve_turnstile
        { acquireOk := false, bodyRaises := false,
          obs := fun _ => none, errMsg := "" }
        "t" 0 5 (initServer 1 1)).2.results "t" =
      some (noPageRecord 0 5) := by
  have h := claim_C7_no_page
    { acquireOk := false, bodyRaises := false,
      obs := fun _ => none, errMsg := "" }
    "t" 0 5 (initServer 1 1) rfl
  exact ⟨h.1, h.2.2.2.1⟩

/-- C5: the polling phase makes at most 60 read attempts; the first
attempt whose read returns a non-empty value ends the poll as a success
carrying that value, and the worker then stores a success record with
that value and an elapsed time; if all 60 attempts see a raised read or
an empty value the poll times out and the worker stores the timeout
record; an attempt that sees the empty value clicks the widget, and every
click is immediately followed by the wait for the next attempt. -/
theorem claim_C5_polling (obs : Nat → Option String) (i k : Nat)
    (s taskId errMsg : String) (t0 t1 : Nat) (st : ServerState) :
    (i < max_attempts → obs i = some s → s ≠ "" →
      (∀ j, j < i → obs j = none ∨ obs j = some "") →
      runPoll obs = .success i s ∧
      lookupResult
        (solve_turnstile ⟨true, false, obs, errMsg⟩ taskId t0 t1 st).2.results
        taskId = some (successRecord t0 (t1 - t0) s) ∧
      (successRecord t0 (t1 - t0) s).value = some s ∧
      (successRecord t0 (t1 - t0) s).elapsedTime = some (t1 - t0)) ∧
    ((∀ j, j < max_attempts → obs j = none ∨ obs j = some "") →
      runPoll obs = .timeout ∧
      lookupResult
        (solve_turnstile ⟨true, false, obs, errMsg⟩ taskId t0 t1 st).2.results
        taskId = some (timeoutRecord t0 (t1 - t0))) ∧
    countReads (runPollTrace obs) ≤ max_attempts ∧
    clicksFollowedByWait (runPollTrace obs) = true ∧
    (k < max_attempts → obs k = some "" →
      (∀ j, j < k → obs j = none ∨ obs j = some "") →
      PollEvent.clickWidget ∈ runPollTrace obs) := by
  refine ⟨?_, ?_, ?_, ?_, ?_⟩
  · intro hi hs hne hb
    have hpoll : pollFrom obs 0 max_attempts = .success (0 + i) s := by
      apply pollFrom_success obs max_attempts i 0 s hi
      · simpa using hs
      · exact hne
      · intro j hj
        simpa using hb j hj
    rw [Nat.zero_add] at hpoll
    have hrun : runPoll obs = .success i s := hpoll
    refine ⟨hrun, ?_, rfl, rfl⟩
    simp only [solve_turnstile]
    simp only [if_true]
    rw [hrun]
    simp [lookup_insert_self]
  · intro hall
    have hpoll : pollFrom obs 0 max_attempts = .timeout := by
      apply pollFrom_timeout
      intro j hj
      simpa using hall j hj
    have hrun : runPoll obs = .timeout := hpoll
    refine ⟨hrun, ?_⟩
    simp only [solve_turnstile]
    simp only [if_true]
    rw [hrun]
    simp [lookup_insert_self]
  · exact countReads_pollTrace obs max_attempts 0
  · exact clicksFollowedByWait_pollTrace obs max_attempts 0
  · intro hk hke hb
    apply click_mem_pollTrace obs max_attempts k 0 hk
    · simpa using hke
    · intro j hj
      simpa using hb j hj

theorem claim_C5_polling_witness :
    runPoll (fun n => if n = 0 then some "" else some "tok") =
      .success 1 "tok" ∧
    PollEvent.clickWidget ∈
      runPollTrace (fun n => if n = 0 then some "" else some "tok") ∧
    runPoll (fun _ => none) = .timeout := by
  have h := claim_C5_polling (fun n => if n = 0 then some "" else some "tok")
    1 0 "tok" "t" "" 0 3 (initServer 1 1)
  have h2 := claim_C5_polling (fun _ => none)
    1 0 "tok" "t" "" 0 3 (initServer 1 1)
  refine ⟨(h.1 (by decide) (by decide) (by decide) ?_).1,
    h.2.2.2.2 (by decide) (by decide) ?_,
    (h2.2.1 ?_).1⟩
  · intro j hj
    interval_cases j
    · right; rfl
  · intro j hj
    omega
  · intro j hj
    left; rfl

lemma recreateLoop_all_ok (createOk : Nat → Bool) (nextId : Nat) :
    ∀ (pool : List Nat) (k : Nat),
      (∀ j, j < pool.length → createOk (k + j) = true) →
      recreateLoop createOk nextId k pool =
        (List.range pool.length).map (fun j => nextId + (k + j)) := by
  intro pool
  induction pool with
  | nil => intro k _; simp [recreateLoop]
  | cons p rest ih =>
      intro k hok
      have h0 : createOk k = true := by
        simpa using hok 0 (by simp)
      have htail := ih (k + 1) (fun j hj => by
        have hmain := hok (j + 1) (by simp only [List.length_cons]; omega)
        have e : k + (j + 1) = k + 1 + j := by omega
        rwa [e] at hmain)
      simp only [recreateLoop, h0, if_true, List.singleton_append]
      rw [htail, List.length_cons, List.range_succ_eq_map]
      simp only [List.map_cons, List.map_map]
      have hfun : (fun j : Nat => nextId + (k + 1 + j)) =
          ((fun j : Nat => nextId + (k + j)) ∘ Nat.succ) := by
        funext j
        simp [Function.comp]
        omega
      rw [hfun]
      simp

/-- C8 counterexample: a recycling cycle over a one-page pool in which
the replacement creation fails ends with an empty pool, so the cycle does
not always preserve the pool size. -/
theorem claim_C8_recycle_counterexample :
    (periodic_cleanup_cycle (fun _ => false) [5] 10).2.length ≠
      ([5] : List Nat).length := by decide

/-- C8 (amended): every run of the recycling cycle drains and closes all
n pooled pages; provided every one of the n fresh-page creations
succeeds, each drained page is replaced by exactly one freshly created
page and the pool again contains exactly n pages. -/
theorem claim_C8_recycle_amended (createOk : Nat → Bool) (pool : List Nat)
    (nextId : Nat) :
    (periodic_cleanup_cycle createOk pool nextId).1 = pool ∧
    ((∀ j, j < pool.length → createOk j = true) →
      (periodic_cleanup_cycle createOk pool nextId).2 =
        (List.range pool.length).map (fun j => nextId + j) ∧
      (periodic_cleanup_cycle createOk pool nextId).2.length =
        pool.length) := by
  constructor
  · rfl
  · intro hok
    have h := recreateLoop_all_ok createOk nextId pool 0
      (fun j hj => by simpa using hok j hj)
    have hfun : (fun j : Nat => nextId + (0 + j)) =
        (fun j : Nat => nextId + j) := by
      funext j
      omega
    constructor
    · show recreateLoop createOk nextId 0 pool = _
      rw [h, hfun]
    · show (recreateLoop createOk nextId 0 pool).length = _
      rw [h]
      simp

theorem claim_C8_recycle_amended_witness :
    (periodic_cleanup_cycle (fun _ => true) [5, 6] 10).1 = [5, 6] ∧
    (periodic_cleanup_cycle (fun _ => true) [5, 6] 10).2 = [10, 11] ∧
    (periodic_cleanup_cycle (fun _ => true) [5, 6] 10).2.length = 2 := by
  have h := claim_C8_recycle_amended (fun _ => true) [5, 6] 10
  have h2 := h.2 (fun j _ => rfl)
  exact ⟨h.1, by rw [h2.1]; rfl, h2.2⟩

/-- C9: when a state file already exists, save first renames it onto the
single backup path (overwriting any previous backup, so at most one
backup exists and it holds exactly the prior version), then serializes
the new state to the temporary file and only afterwards moves it onto the
state-file path with the atomic rename; a second save rolls the backup
to the version saved just before it. -/
theorem claim_C9_save_state (content content2 old : String) (fs : FsState)
    (h : fs.stateFile = some old) :
    save_state content fs =
      ([FsOp.renameStateToBackup, FsOp.writeTmp content,
        FsOp.replaceTmpToState],
       { stateFile := some content, backupFile := some old,
         tmpFile := none }) ∧
    (save_state content2 (save_state content fs).2).2.backupFile =
      some content := by
  constructor
  · simp [save_state, h]
  · simp [save_state, h]

theorem claim_C9_save_state_witness :
    save_state "v2" ⟨some "v1", some "v0", none⟩ =
      ([FsOp.renameStateToBackup, FsOp.writeTmp "v2",
        FsOp.replaceTmpToState],
       ⟨some "v2", some "v1", none⟩) ∧
    (save_state "v3" (save_state "v2"
        ⟨some "v1", some "v0", none⟩).2).2.backupFile = some "v2" :=
  claim_C9_save_state "v2" "v3" "v1" ⟨some "v1", some "v0", none⟩ rfl
